import Mathlib

/-!
Verification of `src/chat-history.py` (cursor-export-tool): a shallow
embedding of the extraction-and-render pipeline, followed by theorems
settling the specification claims.

Modelling conventions:
* JSON values parsed by `json.loads` are modelled by the inductive `JSON`
  (numbers restricted to integers; the program only ever compares a number
  against `1`).
* `json.loads` itself is an external library call; it is modelled as a
  parameter `parse : String → Option JSON`, where `none` means the call
  raised an exception.
* A SQLite row value is modelled by `RowValue`: a BLOB together with the
  result of UTF-8 decoding it (`none` = `UnicodeDecodeError`), a text
  value, or NULL.
* Python exceptions escaping a piece of code are modelled by
  `Except Unit`; `.error ()` means an exception was raised.
* Python `str.strip()` is modelled by `pyTrim` (whitespace trimming on
  the character list), and `.strip()` on a non-string raises
  `AttributeError`, hence `pyStrip` on a non-string JSON value is
  `.error ()`.
* Python equality `x == 1` for a JSON-decoded `x` holds exactly for the
  number `1` and the boolean `True` (`True == 1` in Python); this is
  `pyEqOne`.
* Filesystem effects of `scan_directory` are modelled by a trace of
  `Effect`s; the output file is created lazily by the first append-mode
  `open` inside `save_to_markdown`, so a `writeOutput` effect marks its
  creation.
-/

set_option autoImplicit false

namespace ChatHistory

/-- A JSON value as produced by `json.loads`. -/
inductive JSON where
  | null
  | bool (b : Bool)
  | num (n : Int)
  | str (s : String)
  | arr (elems : List JSON)
  | obj (fields : List (String × JSON))

/-- `d[k]` / `k in d` for a Python dict built by `json.loads`: with
duplicate keys the last occurrence wins. `none` means the key is absent. -/
def objGet (fields : List (String × JSON)) (k : String) : Option JSON :=
  fields.foldl (fun acc p => if p.1 = k then some p.2 else acc) none

/-- Python `d.get(k, default)`. -/
def pyGetD (fields : List (String × JSON)) (k : String) (d : JSON) : JSON :=
  (objGet fields k).getD d

/-- Python `x == 1` on an optional JSON value (`none` is Python `None`):
true exactly for the number `1` and for `True` (in Python `True == 1`). -/
def pyEqOne : Option JSON → Bool
  | some (.num 1) => true
  | some (.bool true) => true
  | _ => false

/-- Python `str.strip()`: drop leading and trailing whitespace. Defined
over the character list so that it evaluates by kernel reduction. -/
def pyTrim (s : String) : String :=
  String.mk
    (((s.data.dropWhile Char.isWhitespace).reverse.dropWhile
        Char.isWhitespace).reverse)

/-- Python `x.strip()` on a JSON value: trims a string, raises
`AttributeError` on anything else. -/
def pyStrip : JSON → Except Unit String
  | .str s => .ok (pyTrim s)
  | _ => .error ()

/-- Python `for x in v`: a list yields its elements, a dict its keys, a
string its characters (as one-character strings); other values raise
`TypeError`. -/
def pyIter : JSON → Except Unit (List JSON)
  | .arr elems => .ok elems
  | .obj fields => .ok (fields.map (fun p => JSON.str p.1))
  | .str s => .ok (s.data.map (fun c => JSON.str (String.singleton c)))
  | _ => .error ()

/-- A row value as fetched from SQLite: a BLOB (carrying the result of
UTF-8 decoding it, `none` on `UnicodeDecodeError`), a text value, or NULL. -/
inductive RowValue where
  | blob (decoded : Option String)
  | text (s : String)
  | vnull

/-- Lines 24-25: `if isinstance(value, bytes): value = value.decode('utf-8')`.
Returns the (optional) string value; `.error ()` models a raised
`UnicodeDecodeError`. NULL stays Python `None` (`none`). -/
def decodeRow : RowValue → Except Unit (Option String)
  | .blob none => .error ()
  | .blob (some s) => .ok (some s)
  | .text s => .ok (some s)
  | .vnull => .ok none

/-- Line 28: `parsed = json.loads(value) if value else None`. A falsy value
(`None` or the empty string) yields `parsed = None`; a failed `json.loads`
raises. -/
def parseRow (parse : String → Option JSON) (v : RowValue) :
    Except Unit (Option JSON) := do
  let t ← decodeRow v
  match t with
  | none => .ok none
  | some s =>
    if s = "" then .ok none
    else
      match parse s with
      | some j => .ok (some j)
      | none => .error ()

/-- A conversation record: `{'key': key, 'conversation': parsed['conversation']}`
(line 32). The `conversation` field is stored as-is, with no shape check. -/
structure ConvRecord where
  key : String
  conversation : JSON

/-- Body of the per-row `try` block of `extract_conversations` (lines 22-32). -/
def convRowTry (parse : String → Option JSON) (key : String) (v : RowValue) :
    Except Unit (List ConvRecord) := do
  let p ← parseRow parse v
  match p with
  | some (.obj fields) =>
    match objGet fields "conversation" with
    | some c => .ok [⟨key, c⟩]
    | none => .ok []
  | _ => .ok []

/-- One row of `extract_conversations`: the `except: pass` at lines 33-35
turns any raised exception into an empty contribution. -/
def convRow (parse : String → Option JSON) (key : String) (v : RowValue) :
    List ConvRecord :=
  match convRowTry parse key v with
  | .ok l => l
  | .error _ => []

/-- `extract_conversations` (lines 11-38) over the fetched rows. -/
def extract_conversations (parse : String → Option JSON) :
    List (String × RowValue) → List ConvRecord
  | [] => []
  | (k, v) :: rest => convRow parse k v ++ extract_conversations parse rest

/-- Line 61: does a list element match as a prompt? A dict containing
`textDescription` matches and contributes that field's value, untouched. -/
def matchPrompt : JSON → Option JSON
  | .obj fields => objGet fields "textDescription"
  | _ => none

/-- Body of the per-row `try` block of `extract_prompts` (lines 50-64). -/
def promptRowTry (parse : String → Option JSON) (v : RowValue) :
    Except Unit (List JSON) := do
  let p ← parseRow parse v
  match p with
  | some (.arr items) => .ok (items.filterMap matchPrompt)
  | some (.obj fields) =>
    match objGet fields "textDescription" with
    | some t => .ok [t]
    | none => .ok []
  | _ => .ok []

/-- One row of `extract_prompts` with its `except: pass` (lines 65-67). -/
def promptRow (parse : String → Option JSON) (v : RowValue) : List JSON :=
  match promptRowTry parse v with
  | .ok l => l
  | .error _ => []

/-- `extract_prompts` (lines 40-70) over the fetched rows. -/
def extract_prompts (parse : String → Option JSON) :
    List (String × RowValue) → List JSON
  | [] => []
  | (_, v) :: rest => promptRow parse v ++ extract_prompts parse rest

/-- Line 110: `sender = "User" if message.get('type') == 1 else "Assistant"`. -/
def senderOf (fields : List (String × JSON)) : String :=
  if pyEqOne (objGet fields "type") then "User" else "Assistant"

/-- Lines 110-112: render one message. A non-dict message raises
(`.get` does not exist); `message.get('text', '').strip()` raises when a
present `text` value is not a string. -/
def renderMessage : JSON → Except Unit String
  | .obj fields => do
    let text ← pyStrip (pyGetD fields "text" (.str ""))
    .ok ("**" ++ senderOf fields ++ "**: " ++ text)
  | _ => .error ()

/-- The message loop of lines 109-112, one rendered line per message. -/
def renderMsgLines : List JSON → Except Unit (List String)
  | [] => .ok []
  | m :: rest => do
    let s ← renderMessage m
    let r ← renderMsgLines rest
    .ok (s :: r)

/-- Lines 108-113: render one conversation record (subsection header, one
line per message, separator). -/
def renderConv (c : ConvRecord) : Except Unit String := do
  let msgs ← pyIter c.conversation
  let lines ← renderMsgLines msgs
  .ok ("## Key: " ++ c.key ++ "\n"
        ++ String.join (lines.map (fun l => l ++ "\n")) ++ "\n---\n")

/-- The conversation loop of lines 107-113. -/
def renderConvs : List ConvRecord → Except Unit String
  | [] => .ok ""
  | c :: rest => do
    let s ← renderConv c
    let r ← renderConvs rest
    .ok (s ++ r)

/-- Lines 105-115: the conversations part of `save_to_markdown`; an empty
record list writes the single marker line instead. -/
def convSection (convs : List ConvRecord) : Except Unit String :=
  if convs.isEmpty then .ok "# No conversations found.\n"
  else do
    let body ← renderConvs convs
    .ok ("# Conversations\n" ++ body)

/-- Lines 119-120: `for i, prompt in enumerate(prompts, 1): f.write(f"{i}. {prompt.strip()}\n")`,
as the list of numbered lines starting at counter `i`. -/
def promptLines (i : Nat) : List JSON → Except Unit (List String)
  | [] => .ok []
  | p :: rest => do
    let s ← pyStrip p
    let r ← promptLines (i + 1) rest
    .ok ((toString i ++ ". " ++ s) :: r)

/-- Lines 117-120: the prompts part of `save_to_markdown`; an empty prompt
list writes nothing at all. -/
def promptSection (prompts : List JSON) : Except Unit String :=
  if prompts.isEmpty then .ok ""
  else do
    let lines ← promptLines 1 prompts
    .ok ("\n# Prompts\n" ++ String.join (lines.map (fun l => l ++ "\n")))

/-- `save_to_markdown` (lines 100-120): the text appended to the output
file for one database file; `.error ()` when rendering raises. -/
def save_to_markdown (convs : List ConvRecord) (prompts : List JSON) :
    Except Unit String := do
  let c ← convSection convs
  let p ← promptSection prompts
  .ok (c ++ p)

/-- A located filesystem path: directory part and filename. -/
structure FilePath where
  dir : String
  fname : String
  deriving DecidableEq

/-- Line 138: `list(base_path.rglob("state.vscdb")) + list(base_path.rglob("state.vscdb.backup"))`,
over the recursive enumeration `files` of the root in traversal order. -/
def locate (files : List FilePath) : List FilePath :=
  files.filter (fun p => p.fname = "state.vscdb")
    ++ files.filter (fun p => p.fname = "state.vscdb.backup")

/-- `scan_database` (lines 72-98): per-file accumulation of both
extraction passes across the file's tables, in table order. -/
def scan_database (parse : String → Option JSON)
    (tables : List (List (String × RowValue))) :
    List ConvRecord × List JSON :=
  (tables.foldr (fun t acc => extract_conversations parse t ++ acc) [],
   tables.foldr (fun t acc => extract_prompts parse t ++ acc) [])

/-- The filesystem as seen by `scan_directory`: whether the root exists,
the recursive enumeration of files under it, and each file's tables
(each a fetched row list). -/
structure FS where
  rootExists : Bool
  files : List FilePath
  tablesOf : FilePath → List (List (String × RowValue))

/-- Observable effects of a run, in order. -/
inductive Effect where
  | reportMissing
  | mkOutputDir
  | reportNoDb
  | reportFound (n : Nat)
  | writeOutput (s : String)
  | reportDone
  deriving DecidableEq

/-- The per-file loop of lines 144-146: scan each database and append its
rendering to the output file. An exception from `save_to_markdown` is not
caught here and aborts the whole loop. -/
def renderFiles (parse : String → Option JSON) (fs : FS) :
    List FilePath → Except Unit (List Effect)
  | [] => .ok []
  | p :: rest => do
    let r := scan_database parse (fs.tablesOf p)
    let s ← save_to_markdown r.1 r.2
    let es ← renderFiles parse fs rest
    .ok (.writeOutput s :: es)

/-- `scan_directory` (lines 122-148) as an effect trace. The output
directory is created (line 135) after the existence check but before the
database files are located (line 138) and before the zero-matches check
(line 139). The output file itself is only created by the first
append-mode `open` inside `save_to_markdown`. -/
def scan_directory (parse : String → Option JSON) (fs : FS) :
    Except Unit (List Effect) :=
  if fs.rootExists = false then .ok [.reportMissing]
  else
    let dbs := locate fs.files
    if dbs.isEmpty then .ok [.mkOutputDir, .reportNoDb]
    else do
      let es ← renderFiles parse fs dbs
      .ok ([.mkOutputDir, .reportFound dbs.length] ++ es ++ [.reportDone])

/-- A row value the classifiers cannot process: the bytes do not decode as
UTF-8, or the (non-empty) text does not parse as JSON. -/
def rowMalformed (parse : String → Option JSON) : RowValue → Prop
  | .blob none => True
  | .blob (some s) => s ≠ "" ∧ parse s = none
  | .text s => s ≠ "" ∧ parse s = none
  | .vnull => False

/-- Is this JSON value a mapping (a Python dict)? -/
def isDict : JSON → Bool
  | .obj _ => true
  | _ => false

/-- A message entry the renderer can process without raising: a mapping
whose `text` field, when present, is a string. -/
def wellShapedMsg : JSON → Bool
  | .obj f =>
    match objGet f "text" with
    | none => true
    | some (.str _) => true
    | some _ => false
  | _ => false

/-- Does an effect write to (and thereby create, on first write) the
output file? -/
def isWrite : Effect → Bool
  | .writeOutput _ => true
  | _ => false

/-! ### Concrete fixtures used to instantiate the theorems -/

/-- Elements of a concrete prompt-bearing JSON array: two matches mixed
with three non-matching elements. -/
def itemsA : List JSON :=
  [.obj [("textDescription", .str "a")], .num 3, .str "x",
   .obj [("other", .null)], .obj [("textDescription", .str "b")]]

/-- Fields of a concrete prompt-bearing JSON mapping. -/
def fieldsA : List (String × JSON) := [("textDescription", .str "c")]

/-- A concrete parse function: "L" is a prompt-bearing array, "D" a
prompt-bearing mapping, everything else fails to parse. -/
def parseFixtureA : String → Option JSON := fun t =>
  if t = "L" then some (.arr itemsA)
  else if t = "D" then some (.obj fieldsA)
  else none

/-- A concrete parse function: "B" is a mapping whose `textDescription`
carries surrounding whitespace. -/
def parseFixtureB : String → Option JSON := fun t =>
  if t = "B" then some (.obj [("textDescription", .str " x ")]) else none

/-- Three concrete messages: a user message, an assistant message, and a
message with no `text` field. -/
def msgsC : List JSON :=
  [.obj [("type", .num 1), ("text", .str " hi ")],
   .obj [("type", .num 2), ("text", .str "hello")],
   .obj [("type", .num 2)]]

/-- A concrete parse function: "C" is a conversation-bearing mapping. -/
def parseFixtureC : String → Option JSON := fun t =>
  if t = "C" then some (.obj [("conversation", .arr msgsC)]) else none

/-- A concrete parse function: "G" is a conversation-bearing mapping with
an empty message list; everything else fails to parse. -/
def parseFixtureG : String → Option JSON := fun t =>
  if t = "G" then some (.obj [("conversation", .arr [])]) else none

/-- A concrete parse function: "P" is a mapping whose `textDescription` is
a number, not a string. -/
def parseFixtureP : String → Option JSON := fun t =>
  if t = "P" then some (.obj [("textDescription", .num 7)]) else none

/-- A filesystem with two database files, each with one table holding one
row whose `textDescription` is a non-string. -/
def fsP : FS :=
  ⟨true, [⟨"w1", "state.vscdb"⟩, ⟨"w2", "state.vscdb"⟩],
   fun _ => [[("k", RowValue.text "P")]]⟩

/-- A filesystem whose root exists but holds no matching filename. -/
def fsNoDb : FS :=
  ⟨true, [⟨"w1", "notes.txt"⟩, ⟨"w1", "state.vscdb.bak"⟩], fun _ => []⟩

/-- A concrete file enumeration mixing primary, backup and other names. -/
def filesFix : List FilePath :=
  [⟨"a", "state.vscdb.backup"⟩, ⟨"a", "state.vscdb"⟩, ⟨"b", "other.db"⟩,
   ⟨"b", "state.vscdb"⟩, ⟨"c", "state.vscdb.backup"⟩]

/-- A concrete parse function for the numbering run: each key parses to a
mapping with a distinct string `textDescription`. -/
def parseFixtureN : String → Option JSON := fun t =>
  if t = "p1" then some (.obj [("textDescription", .str "one")])
  else if t = "p2" then some (.obj [("textDescription", .str "two")])
  else if t = "q1" then some (.obj [("textDescription", .str "uno")])
  else none

/-- A filesystem with two database files: the first contributes two
prompts, the second one prompt. -/
def fsN : FS :=
  ⟨true, [⟨"w1", "state.vscdb"⟩, ⟨"w2", "state.vscdb"⟩],
   fun p =>
     if p.dir = "w1" then
       [[("k1", RowValue.text "p1"), ("k2", RowValue.text "p2")]]
     else [[("k3", RowValue.text "q1")]]⟩

end ChatHistory

namespace ChatHistory

/-! ### Helper lemmas -/

theorem extract_conversations_append (parse : String → Option JSON)
    (l1 l2 : List (String × RowValue)) :
    extract_conversations parse (l1 ++ l2)
      = extract_conversations parse l1 ++ extract_conversations parse l2 := by
  induction l1 with
  | nil => simp [extract_conversations]
  | cons hd tl ih =>
    cases hd
    simp [extract_conversations, ih, List.append_assoc]

theorem extract_prompts_append (parse : String → Option JSON)
    (l1 l2 : List (String × RowValue)) :
    extract_prompts parse (l1 ++ l2)
      = extract_prompts parse l1 ++ extract_prompts parse l2 := by
  induction l1 with
  | nil => simp [extract_prompts]
  | cons hd tl ih =>
    cases hd
    simp [extract_prompts, ih, List.append_assoc]

theorem length_filterMap_matchPrompt (items : List JSON) :
    (items.filterMap matchPrompt).length
      = items.countP (fun it => (matchPrompt it).isSome) := by
  induction items with
  | nil => simp
  | cons hd tl ih =>
    cases h : matchPrompt hd <;>
      simp [List.filterMap_cons, List.countP_cons, h, ih]

theorem parseRow_text_ok (parse : String → Option JSON) (s : String) (j : JSON)
    (hs : s ≠ "") (hp : parse s = some j) :
    parseRow parse (.text s) = .ok (some j) := by
  simp [parseRow, decodeRow, Bind.bind, Except.bind, hs, hp]

end ChatHistory

namespace ChatHistory

theorem convRow_conversation (parse : String → Option JSON) (key s : String)
    (fields : List (String × JSON)) (c : JSON)
    (hs : s ≠ "") (hp : parse s = some (.obj fields))
    (hc : objGet fields "conversation" = some c) :
    convRow parse key (.text s) = [⟨key, c⟩] := by
  simp [convRow, convRowTry, parseRow_text_ok parse s _ hs hp,
    Bind.bind, Except.bind, hc]

theorem promptRow_arr (parse : String → Option JSON) (s : String)
    (items : List JSON)
    (hs : s ≠ "") (hp : parse s = some (.arr items)) :
    promptRow parse (.text s) = items.filterMap matchPrompt := by
  simp [promptRow, promptRowTry, parseRow_text_ok parse s _ hs hp,
    Bind.bind, Except.bind]

theorem promptRow_obj (parse : String → Option JSON) (s : String)
    (fields : List (String × JSON)) (t : JSON)
    (hs : s ≠ "") (hp : parse s = some (.obj fields))
    (ht : objGet fields "textDescription" = some t) :
    promptRow parse (.text s) = [t] := by
  simp [promptRow, promptRowTry, parseRow_text_ok parse s _ hs hp,
    Bind.bind, Except.bind, ht]

theorem parseRow_malformed (parse : String → Option JSON) (v : RowValue)
    (h : rowMalformed parse v) : parseRow parse v = .error () := by
  cases v with
  | blob d =>
    cases d with
    | none => simp [parseRow, decodeRow, Bind.bind, Except.bind]
    | some s =>
      obtain ⟨hs, hp⟩ := h
      simp [parseRow, decodeRow, Bind.bind, Except.bind, hs, hp]
  | text s =>
    obtain ⟨hs, hp⟩ := h
    simp [parseRow, decodeRow, Bind.bind, Except.bind, hs, hp]
  | vnull => exact absurd h (by simp [rowMalformed])

theorem convRow_malformed (parse : String → Option JSON) (key : String)
    (v : RowValue) (h : rowMalformed parse v) :
    convRow parse key v = [] := by
  simp [convRow, convRowTry, parseRow_malformed parse v h,
    Bind.bind, Except.bind]

theorem promptRow_malformed (parse : String → Option JSON)
    (v : RowValue) (h : rowMalformed parse v) :
    promptRow parse v = [] := by
  simp [promptRow, promptRowTry, parseRow_malformed parse v h,
    Bind.bind, Except.bind]

end ChatHistory

namespace ChatHistory

/-- C2: for a row parsing as a JSON array with K prompt-bearing mapping
elements mixed with non-matching elements, prompt extraction yields
exactly those K `textDescription` values in array order; for a row
parsing as a mapping that itself has `textDescription`, exactly one
record is produced. -/
theorem c2_prompt_extraction (parse : String → Option JSON)
    (key₁ key₂ s₁ s₂ : String) (rest : List (String × RowValue))
    (items : List JSON) (fields : List (String × JSON)) (v : JSON)
    (h1b : s₁ ≠ "") (h1 : parse s₁ = some (.arr items))
    (h2b : s₂ ≠ "") (h2 : parse s₂ = some (.obj fields))
    (h3 : objGet fields "textDescription" = some v) :
    extract_prompts parse ((key₁, .text s₁) :: rest)
        = items.filterMap matchPrompt ++ extract_prompts parse rest
      ∧ (items.filterMap matchPrompt).length
        = items.countP (fun it => (matchPrompt it).isSome)
      ∧ extract_prompts parse ((key₂, .text s₂) :: rest)
        = v :: extract_prompts parse rest := by
  refine ⟨?_, length_filterMap_matchPrompt items, ?_⟩
  · simp [extract_prompts, promptRow_arr parse s₁ items h1b h1]
  · simp [extract_prompts, promptRow_obj parse s₂ fields v h2b h2 h3]

/-- C2 witness: the theorem instantiated at the concrete fixture. -/
theorem c2_prompt_extraction_witness :
    ("L" : String) ≠ "" ∧ parseFixtureA "L" = some (.arr itemsA)
  ∧ ("D" : String) ≠ "" ∧ parseFixtureA "D" = some (.obj fieldsA)
  ∧ objGet fieldsA "textDescription" = some (.str "c")
  ∧ (extract_prompts parseFixtureA [("k1", .text "L")]
        = itemsA.filterMap matchPrompt ++ extract_prompts parseFixtureA []
      ∧ (itemsA.filterMap matchPrompt).length
        = itemsA.countP (fun it => (matchPrompt it).isSome)
      ∧ extract_prompts parseFixtureA [("k2", .text "D")]
        = JSON.str "c" :: extract_prompts parseFixtureA []) :=
  ⟨by decide, rfl, by decide, rfl, rfl,
   c2_prompt_extraction parseFixtureA "k1" "k2" "L" "D" [] itemsA fieldsA
     (JSON.str "c") (by decide) rfl (by decide) rfl rfl⟩

/-- C3 counterexample: a `textDescription` of " x " is stored with its
surrounding whitespace intact, so PromptRecords are not trimmed before
storage. -/
theorem c3_no_trim_at_storage_cex :
    extract_prompts parseFixtureB [("k", RowValue.text "B")]
        = [JSON.str " x "]
  ∧ pyTrim " x " ≠ " x " := ⟨rfl, by decide⟩

/-- C3 (amended): a PromptRecord is stored exactly as found in the row
(no trimming at extraction time); trimming happens once, when the prompt
is rendered into the output document. -/
theorem c3_trim_only_at_render (parse : String → Option JSON)
    (key s str : String) (fields : List (String × JSON))
    (rest : List (String × RowValue)) (i : Nat)
    (hs : s ≠ "") (hp : parse s = some (.obj fields))
    (ht : objGet fields "textDescription" = some (.str str)) :
    extract_prompts parse ((key, .text s) :: rest)
        = JSON.str str :: extract_prompts parse rest
      ∧ promptLines i [JSON.str str]
        = .ok [toString i ++ ". " ++ pyTrim str] := by
  constructor
  · simp [extract_prompts, promptRow_obj parse s fields _ hs hp ht]
  · simp [promptLines, pyStrip, Bind.bind, Except.bind]

/-- C3 witness: the amended theorem at the concrete fixture. -/
theorem c3_trim_only_at_render_witness :
    ("B" : String) ≠ ""
  ∧ parseFixtureB "B" = some (.obj [("textDescription", .str " x ")])
  ∧ objGet [("textDescription", JSON.str " x ")] "textDescription"
        = some (.str " x ")
  ∧ (extract_prompts parseFixtureB [("k", .text "B")]
        = JSON.str " x " :: extract_prompts parseFixtureB []
      ∧ promptLines 1 [JSON.str " x "]
        = .ok [toString 1 ++ ". " ++ pyTrim " x "]) :=
  ⟨by decide, rfl, rfl,
   c3_trim_only_at_render parseFixtureB "k" "B" " x "
     [("textDescription", .str " x ")] [] 1 (by decide) rfl rfl⟩

/-- C4: a row whose bytes do not decode as UTF-8, or whose text does not
parse as JSON, is skipped by both extraction passes without an error:
it contributes nothing and the surrounding rows are processed as if it
were absent. -/
theorem c4_malformed_row_skipped (parse : String → Option JSON)
    (pre post : List (String × RowValue)) (key : String) (v : RowValue)
    (h : rowMalformed parse v) :
    extract_conversations parse (pre ++ (key, v) :: post)
        = extract_conversations parse pre ++ extract_conversations parse post
      ∧ extract_prompts parse (pre ++ (key, v) :: post)
        = extract_prompts parse pre ++ extract_prompts parse post := by
  constructor
  · rw [extract_conversations_append]
    simp [extract_conversations, convRow_malformed parse key v h]
  · rw [extract_prompts_append]
    simp [extract_prompts, promptRow_malformed parse v h]

/-- C4 witness: an undecodable BLOB between two well-formed rows. -/
theorem c4_malformed_row_skipped_witness :
    rowMalformed parseFixtureG (RowValue.blob none)
  ∧ (extract_conversations parseFixtureG
        ([("a", .text "G")] ++ ("b", RowValue.blob none) :: [("c", .text "G")])
        = extract_conversations parseFixtureG [("a", .text "G")]
          ++ extract_conversations parseFixtureG [("c", .text "G")]
      ∧ extract_prompts parseFixtureG
        ([("a", .text "G")] ++ ("b", RowValue.blob none) :: [("c", .text "G")])
        = extract_prompts parseFixtureG [("a", .text "G")]
          ++ extract_prompts parseFixtureG [("c", .text "G")]) :=
  ⟨trivial,
   c4_malformed_row_skipped parseFixtureG [("a", .text "G")]
     [("c", .text "G")] "b" (RowValue.blob none) trivial⟩

/-- C10: prompt extraction stores a non-string `textDescription` (here
the number 7) unchecked; rendering then raises calling `.strip()` on it,
and the exception propagates out of the per-file loop, aborting the whole
run instead of skipping the record. -/
theorem c10_nonstring_prompt_aborts_run :
    extract_prompts parseFixtureP [("k", RowValue.text "P")] = [JSON.num 7]
  ∧ save_to_markdown [] [JSON.num 7] = .error ()
  ∧ scan_directory parseFixtureP fsP = .error () := ⟨rfl, rfl, rfl⟩

end ChatHistory

namespace ChatHistory

theorem renderMsgLines_length (msgs : List JSON) (lines : List String)
    (h : renderMsgLines msgs = .ok lines) : lines.length = msgs.length := by
  induction msgs generalizing lines with
  | nil =>
    simp [renderMsgLines] at h
    simp [h]
  | cons m rest ih =>
    simp only [renderMsgLines] at h
    cases hm : renderMessage m with
    | error e => rw [hm] at h; simp [Bind.bind, Except.bind] at h
    | ok s =>
      rw [hm] at h
      cases hr : renderMsgLines rest with
      | error e => rw [hr] at h; simp [Bind.bind, Except.bind] at h
      | ok r =>
        rw [hr] at h
        simp [Bind.bind, Except.bind] at h
        simp [h.symm, ih r hr]

/-- C1 counterexample: the message `{"type": true}` has a type value that
is not the number 1, yet it renders with sender "User" (Python
`True == 1`), contradicting "any other type value gets Assistant". -/
theorem c1_bool_type_renders_user_cex :
    renderMessage (JSON.obj [("type", JSON.bool true)]) = .ok "**User**: "
  ∧ ("**User**: " : String) ≠ "**Assistant**: " := ⟨rfl, by decide⟩

/-- C1 (amended): extraction keeps exactly the N messages in array order;
a message whose type value compares equal to 1 under the source
language's equality (the number 1, or boolean true, since `True == 1` in
Python) renders sender "User"; any other or absent type value renders
"Assistant"; a message with no `text` field renders an empty string after
trimming; rendering emits one line per message. -/
theorem c1_conversation_extraction (parse : String → Option JSON)
    (key s : String) (fields : List (String × JSON)) (msgs : List JSON)
    (rest : List (String × RowValue)) (lines : List String)
    (mfU mfA mfN : List (String × JSON)) (txtU txtA : String)
    (hs : s ≠ "") (hp : parse s = some (.obj fields))
    (hc : objGet fields "conversation" = some (.arr msgs))
    (hlines : renderMsgLines msgs = .ok lines)
    (hU : pyEqOne (objGet mfU "type") = true)
    (hsU : pyStrip (pyGetD mfU "text" (.str "")) = .ok txtU)
    (hA : pyEqOne (objGet mfA "type") = false)
    (hsA : pyStrip (pyGetD mfA "text" (.str "")) = .ok txtA)
    (hN : objGet mfN "text" = none) :
    extract_conversations parse ((key, .text s) :: rest)
        = ⟨key, .arr msgs⟩ :: extract_conversations parse rest
      ∧ pyIter (.arr msgs) = .ok msgs
      ∧ lines.length = msgs.length
      ∧ renderMessage (.obj mfU) = .ok ("**User**: " ++ txtU)
      ∧ renderMessage (.obj mfA) = .ok ("**Assistant**: " ++ txtA)
      ∧ renderMessage (.obj mfN) = .ok ("**" ++ senderOf mfN ++ "**: ") := by
  refine ⟨?_, rfl, renderMsgLines_length msgs lines hlines, ?_, ?_, ?_⟩
  · simp [extract_conversations, convRow_conversation parse key s fields _ hs hp hc]
  · simp [renderMessage, senderOf, hU, hsU, Bind.bind, Except.bind]
  · simp [renderMessage, senderOf, hA, hsA, Bind.bind, Except.bind]
  · simp [renderMessage, pyGetD, hN, pyStrip, pyTrim, Bind.bind, Except.bind]

end ChatHistory

namespace ChatHistory

/-- C1 witness: the amended theorem at the concrete three-message fixture. -/
theorem c1_conversation_extraction_witness :
    ("C" : String) ≠ ""
  ∧ parseFixtureC "C" = some (.obj [("conversation", .arr msgsC)])
  ∧ objGet [("conversation", JSON.arr msgsC)] "conversation"
        = some (.arr msgsC)
  ∧ renderMsgLines msgsC
        = .ok ["**User**: hi", "**Assistant**: hello", "**Assistant**: "]
  ∧ (extract_conversations parseFixtureC [("k", .text "C")]
        = ⟨"k", .arr msgsC⟩ :: extract_conversations parseFixtureC []
      ∧ pyIter (.arr msgsC) = .ok msgsC
      ∧ (["**User**: hi", "**Assistant**: hello",
          "**Assistant**: "] : List String).length = msgsC.length
      ∧ renderMessage (.obj [("type", .num 1), ("text", .str " hi ")])
        = .ok ("**User**: " ++ "hi")
      ∧ renderMessage (.obj [("type", .num 2), ("text", .str "hello")])
        = .ok ("**Assistant**: " ++ "hello")
      ∧ renderMessage (.obj [("type", .num 2)])
        = .ok ("**" ++ senderOf [("type", .num 2)] ++ "**: ")) :=
  ⟨by decide, rfl, rfl, rfl,
   c1_conversation_extraction parseFixtureC "k" "C"
     [("conversation", .arr msgsC)] msgsC []
     ["**User**: hi", "**Assistant**: hello", "**Assistant**: "]
     [("type", .num 1), ("text", .str " hi ")]
     [("type", .num 2), ("text", .str "hello")]
     [("type", .num 2)] "hi" "hello"
     (by decide) rfl rfl rfl rfl rfl rfl rfl rfl⟩

end ChatHistory

namespace ChatHistory

theorem renderMessage_error_of_not_dict (m : JSON) (h : isDict m = false) :
    renderMessage m = .error () := by
  cases m <;> simp [renderMessage, isDict] at h ⊢

theorem renderMessage_ok_of_wellShaped (m : JSON)
    (h : wellShapedMsg m = true) : ∃ s, renderMessage m = .ok s := by
  cases m with
  | obj f =>
    cases ht : objGet f "text" with
    | none =>
      exact ⟨"**" ++ senderOf f ++ "**: " ++ pyTrim "",
        by simp [renderMessage, pyGetD, ht, pyStrip, Bind.bind, Except.bind]⟩
    | some v =>
      cases v with
      | str t =>
        exact ⟨"**" ++ senderOf f ++ "**: " ++ pyTrim t,
          by simp [renderMessage, pyGetD, ht, pyStrip, Bind.bind, Except.bind]⟩
      | null => simp [wellShapedMsg, ht] at h
      | bool b => simp [wellShapedMsg, ht] at h
      | num n => simp [wellShapedMsg, ht] at h
      | arr l => simp [wellShapedMsg, ht] at h
      | obj g => simp [wellShapedMsg, ht] at h
  | null => simp [wellShapedMsg] at h
  | bool b => simp [wellShapedMsg] at h
  | num n => simp [wellShapedMsg] at h
  | str s => simp [wellShapedMsg] at h
  | arr l => simp [wellShapedMsg] at h

theorem renderMsgLines_ok_of_wellShaped (msgs : List JSON)
    (h : msgs.all wellShapedMsg = true) :
    (renderMsgLines msgs).isOk = true := by
  induction msgs with
  | nil => rfl
  | cons m rest ih =>
    simp only [List.all_cons, Bool.and_eq_true] at h
    obtain ⟨s, hs⟩ := renderMessage_ok_of_wellShaped m h.1
    have hr := ih h.2
    cases hrest : renderMsgLines rest with
    | error e => rw [hrest] at hr; simp [Except.isOk, Except.toBool] at hr
    | ok r =>
      simp [renderMsgLines, hs, hrest, Bind.bind, Except.bind,
        Except.isOk, Except.toBool]

theorem renderMsgLines_error_of_mem (msgs : List JSON) (m : JSON)
    (hmem : m ∈ msgs) (herr : renderMessage m = .error ()) :
    renderMsgLines msgs = .error () := by
  induction msgs with
  | nil => cases hmem
  | cons a rest ih =>
    rcases List.mem_cons.mp hmem with h | h
    · subst h
      simp [renderMsgLines, herr, Bind.bind, Except.bind]
    · cases ha : renderMessage a with
      | error e => simp [renderMsgLines, ha, Bind.bind, Except.bind]
      | ok s =>
        simp [renderMsgLines, ha, ih h, Bind.bind, Except.bind]

theorem renderConvs_error_of_mem (convs : List ConvRecord) (c : ConvRecord)
    (hmem : c ∈ convs) (herr : renderConv c = .error ()) :
    renderConvs convs = .error () := by
  induction convs with
  | nil => cases hmem
  | cons a rest ih =>
    rcases List.mem_cons.mp hmem with h | h
    · subst h
      simp [renderConvs, herr, Bind.bind, Except.bind]
    · cases ha : renderConv a with
      | error e => simp [renderConvs, ha, Bind.bind, Except.bind]
      | ok s =>
        simp [renderConvs, ha, ih h, Bind.bind, Except.bind]

end ChatHistory

namespace ChatHistory

/-- C5 counterexample: a ConversationRecord whose message list contains
the non-mapping entry `5` makes rendering raise (`.get` on a non-dict),
so an exception does escape the rendering step. -/
theorem c5_nonmapping_entry_raises_cex :
    save_to_markdown [⟨"k", JSON.arr [JSON.num 5]⟩] [] = .error () := rfl

/-- C5 (amended): rendering is robust only for message entries that are
mappings whose `text` field, when present, is a string — those render
with missing-field defaults and no error; a message entry that is not a
mapping makes the record's rendering raise, and the exception escapes
`save_to_markdown`. -/
theorem c5_rendering_partial_robustness (key : String)
    (msgs msgsBad : List JSON) (m : JSON)
    (convs : List ConvRecord) (prompts : List JSON)
    (hws : msgs.all wellShapedMsg = true)
    (hmem : m ∈ msgsBad) (hnd : isDict m = false)
    (hconv : ConvRecord.mk key (.arr msgsBad) ∈ convs) :
    (renderMsgLines msgs).isOk = true
    ∧ renderConv ⟨key, .arr msgsBad⟩ = .error ()
    ∧ save_to_markdown convs prompts = .error () := by
  have h2 : renderConv ⟨key, .arr msgsBad⟩ = .error () := by
    have herr := renderMsgLines_error_of_mem msgsBad m hmem
      (renderMessage_error_of_not_dict m hnd)
    simp [renderConv, pyIter, herr, Bind.bind, Except.bind]
  refine ⟨renderMsgLines_ok_of_wellShaped msgs hws, h2, ?_⟩
  have h3 := renderConvs_error_of_mem convs _ hconv h2
  have hne : convs.isEmpty = false := by
    cases convs with
    | nil => cases hconv
    | cons a rest => rfl
  simp [save_to_markdown, convSection, hne, h3, Bind.bind, Except.bind]

/-- C5 witness: the amended theorem at a wholly well-shaped message list
and at a record containing the non-mapping entry `5`. -/
theorem c5_rendering_partial_robustness_witness :
    msgsC.all wellShapedMsg = true
  ∧ JSON.num 5 ∈ [JSON.num 5]
  ∧ isDict (JSON.num 5) = false
  ∧ ConvRecord.mk "k" (.arr [JSON.num 5]) ∈ [ConvRecord.mk "k" (.arr [JSON.num 5])]
  ∧ ((renderMsgLines msgsC).isOk = true
      ∧ renderConv ⟨"k", .arr [JSON.num 5]⟩ = .error ()
      ∧ save_to_markdown [⟨"k", .arr [JSON.num 5]⟩] [] = .error ()) :=
  ⟨rfl, List.mem_singleton.mpr rfl, rfl, List.mem_singleton.mpr rfl,
   c5_rendering_partial_robustness "k" msgsC [JSON.num 5] (JSON.num 5)
     [⟨"k", .arr [JSON.num 5]⟩] [] rfl (List.mem_singleton.mpr rfl) rfl
     (List.mem_singleton.mpr rfl)⟩

end ChatHistory

namespace ChatHistory

/-- C6 counterexample: on a root that exists but contains no matching
filename, the run's trace does contain the make-output-directory effect:
the directory is created (line 135) before the locator runs (line 138),
not after its early-termination check. -/
theorem c6_output_dir_created_cex :
    scan_directory (fun _ => none) fsNoDb
        = .ok [Effect.mkOutputDir, Effect.reportNoDb]
  ∧ Effect.mkOutputDir ∈ [Effect.mkOutputDir, Effect.reportNoDb] :=
  ⟨rfl, List.mem_cons_self _ _⟩

/-- C6 (amended): for a root that exists with zero matching filenames the
run reports zero files found and creates no output file, but the output
directory is created before the zero-matches check, so it is created on
this path too. -/
theorem c6_zero_matches (parse : String → Option JSON) (fs : FS)
    (hroot : fs.rootExists = true) (hempty : locate fs.files = []) :
    scan_directory parse fs = .ok [Effect.mkOutputDir, Effect.reportNoDb]
    ∧ ([Effect.mkOutputDir, Effect.reportNoDb].filter isWrite) = [] := by
  constructor
  · simp [scan_directory, hroot, hempty]
  · rfl

/-- C6 witness: the amended theorem at the concrete fixture root. -/
theorem c6_zero_matches_witness :
    fsNoDb.rootExists = true
  ∧ locate fsNoDb.files = []
  ∧ (scan_directory (fun _ => none) fsNoDb
        = .ok [Effect.mkOutputDir, Effect.reportNoDb]
      ∧ ([Effect.mkOutputDir, Effect.reportNoDb].filter isWrite) = []) :=
  ⟨rfl, rfl, c6_zero_matches (fun _ => none) fsNoDb rfl rfl⟩

end ChatHistory

namespace ChatHistory

/-- C7: the locator returns exactly the files named `state.vscdb` or
`state.vscdb.backup` (membership characterisation), and every
primary-named match precedes every backup-named match: once a
backup-named entry appears at index `i`, every index `j ≥ i` is also
backup-named. -/
theorem c7_locator (files : List FilePath) (p : FilePath) (i j : Nat)
    (hi : i < (locate files).length) (hj : j < (locate files).length)
    (hij : i ≤ j)
    (hbk : ((locate files).get ⟨i, hi⟩).fname = "state.vscdb.backup") :
    (p ∈ locate files
      ↔ p ∈ files
        ∧ (p.fname = "state.vscdb" ∨ p.fname = "state.vscdb.backup"))
    ∧ ((locate files).get ⟨j, hj⟩).fname = "state.vscdb.backup" := by
  constructor
  · simp only [locate, List.mem_append, List.mem_filter, decide_eq_true_eq]
    tauto
  · set l1 := files.filter (fun q => q.fname = "state.vscdb") with hl1
    set l2 := files.filter (fun q => q.fname = "state.vscdb.backup") with hl2
    have hle : l1.length ≤ i := by
      by_contra hlt
      push_neg at hlt
      have hgl : (locate files).get ⟨i, hi⟩ = l1.get ⟨i, hlt⟩ := by
        show (l1 ++ l2)[i] = l1[i]
        exact List.getElem_append_left hlt
      have hmem : l1.get ⟨i, hlt⟩ ∈ l1 := List.get_mem l1 i hlt
      have hfn := (List.mem_filter.mp hmem).2
      simp only [decide_eq_true_eq] at hfn
      rw [hgl, hfn] at hbk
      exact absurd hbk (by decide)
    have hjle : l1.length ≤ j := le_trans hle hij
    have hj2 : j - l1.length < l2.length := by
      have hlen : (locate files).length = l1.length + l2.length := by
        simp [locate, ← hl1, ← hl2]
      omega
    have hgr : (locate files).get ⟨j, hj⟩ = l2.get ⟨j - l1.length, hj2⟩ := by
      show (l1 ++ l2)[j] = l2[j - l1.length]
      exact List.getElem_append_right hjle
    rw [hgr]
    have hmem : l2.get ⟨j - l1.length, hj2⟩ ∈ l2 :=
      List.get_mem l2 (j - l1.length) hj2
    have hfn := (List.mem_filter.mp hmem).2
    simpa using hfn

/-- C7 witness: the theorem at a concrete enumeration mixing primary,
backup and unrelated filenames. -/
theorem c7_locator_witness :
    (2 : Nat) ≤ 3
  ∧ ((locate filesFix).get ⟨2, by decide⟩).fname = "state.vscdb.backup"
  ∧ ((FilePath.mk "a" "state.vscdb" ∈ locate filesFix
        ↔ FilePath.mk "a" "state.vscdb" ∈ filesFix
          ∧ ((FilePath.mk "a" "state.vscdb").fname = "state.vscdb"
             ∨ (FilePath.mk "a" "state.vscdb").fname = "state.vscdb.backup"))
      ∧ ((locate filesFix).get ⟨3, by decide⟩).fname = "state.vscdb.backup") :=
  ⟨by decide, by decide,
   c7_locator filesFix ⟨"a", "state.vscdb"⟩ 2 3 (by decide) (by decide)
     (by decide) (by decide)⟩

end ChatHistory

namespace ChatHistory

/-- C8: a database file rendered with zero conversation records gets
exactly the single marker line as its conversations part (so no
subsections), and a database file rendered with zero prompt records gets
nothing at all for its prompts section. -/
theorem c8_empty_sections (prompts : List JSON) (pp : String)
    (convs : List ConvRecord) (cc : String)
    (hp : promptSection prompts = .ok pp)
    (hc : convSection convs = .ok cc) :
    save_to_markdown [] prompts = .ok ("# No conversations found.\n" ++ pp)
    ∧ promptSection [] = .ok ""
    ∧ save_to_markdown convs [] = .ok cc := by
  refine ⟨?_, rfl, ?_⟩
  · simp [save_to_markdown, convSection, hp, Bind.bind, Except.bind]
  · simp [save_to_markdown, hc, promptSection, Bind.bind, Except.bind]

/-- C8 witness: the theorem at one concrete prompt and one concrete
conversation record. -/
theorem c8_empty_sections_witness :
    promptSection [JSON.str " p "] = .ok "\n# Prompts\n1. p\n"
  ∧ convSection [⟨"k", .arr []⟩] = .ok "# Conversations\n## Key: k\n\n---\n"
  ∧ (save_to_markdown [] [JSON.str " p "]
        = .ok ("# No conversations found.\n" ++ "\n# Prompts\n1. p\n")
      ∧ promptSection [] = .ok ""
      ∧ save_to_markdown [⟨"k", .arr []⟩] []
        = .ok "# Conversations\n## Key: k\n\n---\n") :=
  ⟨rfl, rfl,
   c8_empty_sections [JSON.str " p "] "\n# Prompts\n1. p\n"
     [⟨"k", .arr []⟩] "# Conversations\n## Key: k\n\n---\n" rfl rfl⟩

theorem promptLines_numbering (ps : List JSON) (i : Nat)
    (lines : List String) (h : promptLines i ps = .ok lines) :
    lines.length = ps.length
    ∧ ∀ k (hk : k < lines.length),
        ∃ t, lines.get ⟨k, hk⟩ = toString (i + k) ++ ". " ++ t := by
  induction ps generalizing i lines with
  | nil =>
    simp [promptLines] at h
    subst h
    exact ⟨rfl, fun k hk => absurd hk (by simp)⟩
  | cons p rest ih =>
    simp only [promptLines] at h
    cases hs : pyStrip p with
    | error e => rw [hs] at h; simp [Bind.bind, Except.bind] at h
    | ok s =>
      rw [hs] at h
      cases hr : promptLines (i + 1) rest with
      | error e => rw [hr] at h; simp [Bind.bind, Except.bind] at h
      | ok r =>
        rw [hr] at h
        simp only [Bind.bind, Except.bind, Except.ok.injEq] at h
        subst h
        obtain ⟨hlen, hnum⟩ := ih (i + 1) r hr
        refine ⟨by simp [hlen], ?_⟩
        intro k hk
        cases k with
        | zero => exact ⟨s, by simp⟩
        | succ k =>
          have hk2 : k < r.length := by
            simp at hk
            omega
          obtain ⟨t, ht⟩ := hnum k hk2
          refine ⟨t, ?_⟩
          simp only [List.get_cons_succ]
          rw [ht]
          have : i + 1 + k = i + (k + 1) := by omega
          rw [this]

end ChatHistory

namespace ChatHistory

theorem renderFiles_mem (parse : String → Option JSON) (fs : FS)
    (p : FilePath) :
    ∀ (pre post : List FilePath) (es : List Effect),
      renderFiles parse fs (pre ++ p :: post) = .ok es →
      ∃ s, Effect.writeOutput s ∈ es
        ∧ save_to_markdown (scan_database parse (fs.tablesOf p)).1
            (scan_database parse (fs.tablesOf p)).2 = .ok s := by
  intro pre
  induction pre with
  | nil =>
    intro post es h
    simp only [List.nil_append, renderFiles] at h
    cases hs : save_to_markdown (scan_database parse (fs.tablesOf p)).1
        (scan_database parse (fs.tablesOf p)).2 with
    | error e => rw [hs] at h; simp [Bind.bind, Except.bind] at h
    | ok s =>
      rw [hs] at h
      cases hr : renderFiles parse fs post with
      | error e => rw [hr] at h; simp [Bind.bind, Except.bind] at h
      | ok es2 =>
        rw [hr] at h
        simp only [Bind.bind, Except.bind, Except.ok.injEq] at h
        subst h
        exact ⟨s, List.mem_cons_self _ _, rfl⟩
  | cons q pre ih =>
    intro post es h
    simp only [List.cons_append, renderFiles, List.append_eq] at h
    cases hs : save_to_markdown (scan_database parse (fs.tablesOf q)).1
        (scan_database parse (fs.tablesOf q)).2 with
    | error e => rw [hs] at h; simp [Bind.bind, Except.bind] at h
    | ok s =>
      rw [hs] at h
      cases hr : renderFiles parse fs (pre ++ p :: post) with
      | error e => rw [hr] at h; simp [Bind.bind, Except.bind] at h
      | ok es2 =>
        rw [hr] at h
        simp only [Bind.bind, Except.bind, Except.ok.injEq] at h
        subst h
        obtain ⟨s2, hmem, hsave⟩ := ih post es2 hr
        exact ⟨s2, List.mem_cons_of_mem _ hmem, hsave⟩

/-- C9: in a run over several database files, each file's rendered
prompt list is produced from that file's prompts alone and is numbered
1, 2, ... sequentially over them, regardless of how many prompts the
files before it contributed. -/
theorem c9_numbering_restarts (parse : String → Option JSON) (fs : FS)
    (pre post : List FilePath) (p : FilePath) (es : List Effect)
    (lines : List String)
    (hrun : renderFiles parse fs (pre ++ p :: post) = .ok es)
    (hlines : promptLines 1
        (scan_database parse (fs.tablesOf p)).2 = .ok lines) :
    (∃ s, Effect.writeOutput s ∈ es
        ∧ save_to_markdown (scan_database parse (fs.tablesOf p)).1
            (scan_database parse (fs.tablesOf p)).2 = .ok s)
    ∧ lines.length = (scan_database parse (fs.tablesOf p)).2.length
    ∧ ∀ k (hk : k < lines.length),
        ∃ t, lines.get ⟨k, hk⟩ = toString (1 + k) ++ ". " ++ t := by
  obtain ⟨hlen, hnum⟩ := promptLines_numbering _ 1 lines hlines
  exact ⟨renderFiles_mem parse fs p pre post es hrun, hlen, hnum⟩

/-- C9 witness: a two-file run in which the first file contributes two
prompts and the second file's single prompt is still numbered `1.`. -/
theorem c9_numbering_restarts_witness :
    renderFiles parseFixtureN fsN
        ([FilePath.mk "w1" "state.vscdb"]
          ++ FilePath.mk "w2" "state.vscdb" :: [])
      = .ok [Effect.writeOutput
               "# No conversations found.\n\n# Prompts\n1. one\n2. two\n",
             Effect.writeOutput
               "# No conversations found.\n\n# Prompts\n1. uno\n"]
  ∧ promptLines 1
        (scan_database parseFixtureN
          (fsN.tablesOf ⟨"w2", "state.vscdb"⟩)).2 = .ok ["1. uno"]
  ∧ ((∃ s, Effect.writeOutput s
            ∈ [Effect.writeOutput
                 "# No conversations found.\n\n# Prompts\n1. one\n2. two\n",
               Effect.writeOutput
                 "# No conversations found.\n\n# Prompts\n1. uno\n"]
          ∧ save_to_markdown
              (scan_database parseFixtureN
                (fsN.tablesOf ⟨"w2", "state.vscdb"⟩)).1
              (scan_database parseFixtureN
                (fsN.tablesOf ⟨"w2", "state.vscdb"⟩)).2 = .ok s)
      ∧ (["1. uno"] : List String).length
        = (scan_database parseFixtureN
            (fsN.tablesOf ⟨"w2", "state.vscdb"⟩)).2.length
      ∧ ∀ k (hk : k < (["1. uno"] : List String).length),
          ∃ t, (["1. uno"] : List String).get ⟨k, hk⟩
            = toString (1 + k) ++ ". " ++ t) :=
  ⟨rfl, rfl,
   c9_numbering_restarts parseFixtureN fsN [⟨"w1", "state.vscdb"⟩] []
     ⟨"w2", "state.vscdb"⟩ _ ["1. uno"] rfl rfl⟩

end ChatHistory
